import Mathlib

/-!
Shallow embedding of the HR/payroll backend (src/src/payroll-components.ts).

Conventions of the embedding:
* JS numbers are modelled as `ℚ`; a nullable/absent JSON or database numeric
  slot is `Option ℚ` (`none` = null/undefined).  `Number(x) || 0` and
  `parseFloat(x || 0)` both send null/undefined to 0 and are modelled by
  `numOr0`.
* An arithmetic result that can be NaN (adding an absent field) is modelled
  as `Option ℚ` with `none` standing for NaN; `jsAdd`/`jsSub` propagate it.
* JS `Date` values are modelled at day granularity (the endpoints parse
  date-only ISO strings, i.e. midnight timestamps): a `JDate` is a
  (getFullYear, getMonth, getDate) triple, 0-based months, and timestamp
  comparison of midnight dates is the lexicographic order `dateLE`.
* Database reads (`findMany`/`findFirst`) are modelled by passing the
  relevant rows in as lists and using `List.filter` / `List.find?`.
-/

/-- `Number(x) || 0` / `parseFloat(x || 0)`: an absent numeric slot reads as 0. -/
def numOr0 (x : Option ℚ) : ℚ := x.getD 0

/-- JS `+` on number slots: any absent operand (undefined) or NaN operand
yields NaN (`none`). -/
def jsAdd : Option ℚ → Option ℚ → Option ℚ
  | some a, some b => some (a + b)
  | _, _ => none

/-- JS `-` on number slots, NaN-propagating. -/
def jsSub : Option ℚ → Option ℚ → Option ℚ
  | some a, some b => some (a - b)
  | _, _ => none

/-- JS truthiness of a number slot: `undefined`/`null` and `0` are falsy. -/
def truthyNum : Option ℚ → Bool
  | none => false
  | some v => decide (v ≠ 0)

/-! ## Data model: payroll components and salary rows -/

/-- A `payroll_components` row.  `ctype` is the row's `type` column
(`"income"` or `"deduction"`); `percentage` and `amount` are nullable
decimals. -/
structure PayComponent where
  name : String
  ctype : String
  category : String
  percentage : Option ℚ
  amount : Option ℚ
  is_active : Bool
deriving DecidableEq

/-- A `salary` row: the pure basic salary and the five nullable allowances. -/
structure Salary where
  basic_salary : Option ℚ
  position_allowance : Option ℚ
  management_allowance : Option ℚ
  phone_allowance : Option ℚ
  incentive_allowance : Option ℚ
  overtime_allowance : Option ℚ
deriving DecidableEq

/-- The `manual_deductions` record of a calculate request; each field may be
absent. -/
structure ManualDeductions where
  kasbon : Option ℚ
  telat : Option ℚ
  angsuran_kredit : Option ℚ
deriving DecidableEq

/-! ## POST /api/payrolls/calculate (lines 2449–2641) -/

/-- Per-component contribution of the calculator loop (lines 2527–2537):
`percentage > 0` ⇒ `pureBasicSalary * percentage / 100`, else a positive flat
`amount`, else 0. -/
def componentAmount (base : ℚ) (c : PayComponent) : ℚ :=
  let percentage := numOr0 c.percentage
  let amount := numOr0 c.amount
  if 0 < percentage then base * percentage / 100
  else if 0 < amount then amount
  else 0

/-- One entry of the calculator's `calculated` array (lines 2542–2550). -/
structure CalcEntry where
  name : String
  ctype : String
  amount : ℚ
  percentage : ℚ
  is_percentage : Bool
  category : String
deriving DecidableEq

/-- The entry pushed for one component. -/
def mkEntry (base : ℚ) (c : PayComponent) : CalcEntry :=
  ⟨c.name, c.ctype, componentAmount base c, numOr0 c.percentage,
    decide (0 < numOr0 c.percentage), c.category⟩

/-- One step of the `activeComponents.forEach` loop (lines 2522–2558): push
the entry and add the amount into `totalIncome` or `totalAutoDeduction`
according to the component's type. -/
def calcStep (base : ℚ) (acc : List CalcEntry × ℚ × ℚ) (c : PayComponent) :
    List CalcEntry × ℚ × ℚ :=
  let amt := componentAmount base c
  if c.ctype = "income" then (acc.1 ++ [mkEntry base c], acc.2.1 + amt, acc.2.2)
  else if c.ctype = "deduction" then (acc.1 ++ [mkEntry base c], acc.2.1, acc.2.2 + amt)
  else (acc.1 ++ [mkEntry base c], acc.2.1, acc.2.2)

/-- The whole component loop: entries, `totalIncome`, `totalAutoDeduction`. -/
def calcComponents (base : ℚ) (comps : List PayComponent) : List CalcEntry × ℚ × ℚ :=
  comps.foldl (calcStep base) ([], 0, 0)

/-- `totalTunjangan` (lines 2569–2575): the five allowances of the salary
row, null read as 0. -/
def totalTunjangan (s : Salary) : ℚ :=
  numOr0 s.position_allowance + numOr0 s.management_allowance + numOr0 s.phone_allowance +
    numOr0 s.incentive_allowance + numOr0 s.overtime_allowance

/-- `manual_deductions || {kasbon:0, telat:0, angsuran_kredit:0}` followed by
`kasbon + telat + angsuran_kredit` (lines 2561–2562).  A record that is
present but misses a field makes the JS sum NaN (`none`). -/
def manualTotal (md : Option ManualDeductions) : Option ℚ :=
  let m := md.getD ⟨some 0, some 0, some 0⟩
  jsAdd (jsAdd m.kasbon m.telat) m.angsuran_kredit

/-- The `totals` object of the calculator's response (lines 2618–2629).
`total_manual_deduction`, `total_deduction` and `net_salary` can be NaN. -/
structure CalcTotals where
  basic_salary : ℚ
  total_income : ℚ
  total_auto_deduction : ℚ
  total_manual_deduction : Option ℚ
  total_deduction : Option ℚ
  net_salary : Option ℚ
  pendapatan_tetap : ℚ
  pendapatan_tidak_tetap : ℚ
  total_pendapatan : ℚ
deriving DecidableEq

/-- The calculator's response (lines 2616–2632), without the echoed
breakdown object (it repeats three `totals` fields verbatim). -/
structure CalcResponse where
  calculated_components : List CalcEntry
  totals : CalcTotals
  pure_basic_salary : ℚ
deriving DecidableEq

/-- The body of the calculate handler once the employee and salary rows are
found (lines 2498–2632).  `components` is the full `payroll_components`
table; the handler reads the `is_active = true` rows.  `basicSalaryNumber`
is `Number(basic_salary) || 0` of the request's `basic_salary`, used only
for the echoed `totals.basic_salary`. -/
def calcCore (salaryData : Salary) (components : List PayComponent)
    (md : Option ManualDeductions) (basicSalaryNumber : ℚ) : CalcResponse :=
  let pureBasicSalary := numOr0 salaryData.basic_salary
  let active := components.filter (fun c => c.is_active)
  let r := calcComponents pureBasicSalary active
  let totalManualDeduction := manualTotal md
  let pendapatanTetap := pureBasicSalary + r.2.1
  let pendapatanTidakTetap := totalTunjangan salaryData
  let totalPendapatan := pendapatanTetap + pendapatanTidakTetap
  let totalDeduction := jsAdd (some r.2.2) totalManualDeduction
  let netSalary := jsSub (some totalPendapatan) totalDeduction
  { calculated_components := r.1
    totals :=
      { basic_salary := basicSalaryNumber
        total_income := r.2.1
        total_auto_deduction := r.2.2
        total_manual_deduction := totalManualDeduction
        total_deduction := totalDeduction
        net_salary := netSalary
        pendapatan_tetap := pendapatanTetap
        pendapatan_tidak_tetap := pendapatanTidakTetap
        total_pendapatan := totalPendapatan }
    pure_basic_salary := pureBasicSalary }

/-- The calculate endpoint: `if (!employee_id || !basic_salary)` rejects the
request (modelled `none`) when the supplied `basic_salary` is absent or 0
(lines 2453–2456); otherwise the response is `calcCore`. -/
def calcPayroll (salaryData : Salary) (components : List PayComponent)
    (md : Option ManualDeductions) (basic_salary : Option ℚ) : Option CalcResponse :=
  if truthyNum basic_salary then
    some (calcCore salaryData components md (numOr0 basic_salary))
  else none

/-- `mdComplete md = true` when the manual-deductions record is absent (the
handler then substitutes an all-zero record) or has all three fields, so its
JS sum is an actual number. -/
def mdComplete : Option ManualDeductions → Bool
  | none => true
  | some m => m.kasbon.isSome && m.telat.isSome && m.angsuran_kredit.isSome

/-! ## POST /api/payrolls: creation-time fallback computation (lines 2214–2257) -/

/-- The BPJS sub-amount fields of a payroll creation request body that the
fallback logic resolves. -/
structure CreateBody where
  bpjs_health_company : Option ℚ
  jht_company : Option ℚ
  jkk_company : Option ℚ
  jkm_company : Option ℚ
  jp_company : Option ℚ
  bpjs_health_employee : Option ℚ
  jht_employee : Option ℚ
  jp_employee : Option ℚ
deriving DecidableEq

/-- `getComponentAmount` of the creation handler (lines 2220–2228): find the
active component by name and type; `percentage > 0` ⇒
`basicSalaryNumber * percentage / 100`, else a positive flat amount, else 0;
0 when the component is missing. -/
def getComponentAmount (active : List PayComponent) (componentName expectedType : String)
    (basicSalaryNumber : ℚ) : ℚ :=
  match active.find? (fun c => c.name == componentName && c.ctype == expectedType) with
  | none => 0
  | some comp =>
      let percentage := numOr0 comp.percentage
      let amount := numOr0 comp.amount
      if 0 < percentage then basicSalaryNumber * percentage / 100
      else if 0 < amount then amount
      else 0

/-- `parseFloat(bodyValue || 0) || fallback` (lines 2243–2251): the body's
value when it parses to a nonzero number, the fallback otherwise. -/
def resolveBpjsField (bodyVal : Option ℚ) (fallback : ℚ) : ℚ :=
  let v := numOr0 bodyVal
  if v ≠ 0 then v else fallback

/-- The resolved BPJS sub-amounts and the two subtotal sums of the creation
handler. -/
structure ResolvedBpjs where
  bpjs_health_company : ℚ
  jht_company : ℚ
  jkk_company : ℚ
  jkm_company : ℚ
  jp_company : ℚ
  bpjs_health_employee : ℚ
  jht_employee : ℚ
  jp_employee : ℚ
  subtotal_company_calc : ℚ
  subtotal_employee_calc : ℚ
deriving DecidableEq

/-- Lines 2230–2254: compute the eight fallbacks from the active components,
resolve each body field against its fallback, and sum the resolved values
into `subtotalCompanyCalc` / `subtotalEmployeeCalc`. -/
def resolveBpjs (active : List PayComponent) (basicSalaryNumber : ℚ)
    (body : CreateBody) : ResolvedBpjs :=
  let r1 := resolveBpjsField body.bpjs_health_company
    (getComponentAmount active "BPJS Kesehatan (Perusahaan)" "income" basicSalaryNumber)
  let r2 := resolveBpjsField body.jht_company
    (getComponentAmount active "BPJS Ketenagakerjaan JHT (Perusahaan)" "income" basicSalaryNumber)
  let r3 := resolveBpjsField body.jkk_company
    (getComponentAmount active "BPJS Ketenagakerjaan JKK (Perusahaan)" "income" basicSalaryNumber)
  let r4 := resolveBpjsField body.jkm_company
    (getComponentAmount active "BPJS Ketenagakerjaan JKM (Perusahaan)" "income" basicSalaryNumber)
  let r5 := resolveBpjsField body.jp_company
    (getComponentAmount active "BPJS Jaminan Pensiun (Perusahaan)" "income" basicSalaryNumber)
  let r6 := resolveBpjsField body.bpjs_health_employee
    (getComponentAmount active "BPJS Kesehatan (Karyawan)" "deduction" basicSalaryNumber)
  let r7 := resolveBpjsField body.jht_employee
    (getComponentAmount active "BPJS Ketenagakerjaan JHT (Karyawan)" "deduction" basicSalaryNumber)
  let r8 := resolveBpjsField body.jp_employee
    (getComponentAmount active "BPJS Jaminan Pensiun (Karyawan)" "deduction" basicSalaryNumber)
  { bpjs_health_company := r1
    jht_company := r2
    jkk_company := r3
    jkm_company := r4
    jp_company := r5
    bpjs_health_employee := r6
    jht_employee := r7
    jp_employee := r8
    subtotal_company_calc := r1 + r2 + r3 + r4 + r5
    subtotal_employee_calc := r6 + r7 + r8 }

/-! ## Dates -/

/-- A JS `Date` at day granularity: `(getFullYear, getMonth, getDate)`,
months 0-based. -/
structure JDate where
  year : Int
  month : Nat
  day : Nat
deriving DecidableEq

/-- Gregorian leap year, as JS `Date` implements the calendar. -/
def isLeap (y : Int) : Bool := y % 4 == 0 && (y % 100 != 0 || y % 400 == 0)

/-- Days in 0-based month `m` of year `y`. -/
def daysInMonth (y : Int) (m : Nat) : Nat :=
  if m = 1 then (if isLeap y then 29 else 28)
  else if m = 3 ∨ m = 5 ∨ m = 8 ∨ m = 10 then 30
  else 31

/-- Timestamp order of midnight dates: lexicographic on (year, month, day). -/
def dateLE (a b : JDate) : Bool :=
  decide (a.year < b.year) ||
    (decide (a.year = b.year) &&
      (decide (a.month < b.month) ||
        (decide (a.month = b.month) && decide (a.day ≤ b.day))))

/-- Strict timestamp order of midnight dates. -/
def dateLT (a b : JDate) : Bool :=
  decide (a.year < b.year) ||
    (decide (a.year = b.year) &&
      (decide (a.month < b.month) ||
        (decide (a.month = b.month) && decide (a.day < b.day))))

/-- `new Date(y, m, 1)`: first day of the date's month (line 2185). -/
def monthStart (d : JDate) : JDate := ⟨d.year, d.month, 1⟩

/-- `new Date(y, m + 1, 0)`: last day of the date's month (line 2186). -/
def monthEnd (d : JDate) : JDate := ⟨d.year, d.month, daysInMonth d.year d.month⟩

/-- A calendar-valid day-granularity date. -/
def validDate (d : JDate) : Prop :=
  d.month ≤ 11 ∧ 1 ≤ d.day ∧ d.day ≤ daysInMonth d.year d.month

instance (d : JDate) : Decidable (validDate d) := by unfold validDate; infer_instance

/-- Same calendar month and year. -/
def sameMonth (a b : JDate) : Prop := a.year = b.year ∧ a.month = b.month

instance (a b : JDate) : Decidable (sameMonth a b) := by unfold sameMonth; infer_instance

/-- Civil day number of a date (days_from_civil, era-free form): consecutive
calendar days map to consecutive integers.  Models a JS millisecond
timestamp divided by 86400000 for midnight dates. -/
def toDays (dt : JDate) : Int :=
  let m : Int := dt.month + 1
  let d : Int := dt.day
  let y : Int := if m ≤ 2 then dt.year - 1 else dt.year
  let mp : Int := (m + 9) % 12
  365 * y + Int.fdiv y 4 - Int.fdiv y 100 + Int.fdiv y 400 + (153 * mp + 2) / 5 + d - 1

/-! ## POST /api/payrolls: duplicate-month guard (lines 2182–2212) -/

/-- A stored payroll row of one employee, with amounts (the guard ignores
them). -/
structure PayrollRow where
  payment_date : JDate
  gross_salary : ℚ
  net_salary : ℚ
deriving DecidableEq

/-- The `findFirst` of lines 2188–2196: is there an existing payroll of this
employee whose `payment_date` lies in the new payment date's month? -/
def duplicateMonthGuard (existing : List PayrollRow) (payDate : JDate) : Bool :=
  existing.any (fun p =>
    dateLE (monthStart payDate) p.payment_date && dateLE p.payment_date (monthEnd payDate))

/-- Payroll creation restricted to the duplicate-month guard: `none` models
the 409 Conflict response (lines 2198–2208), `some rows` the stored table
after a successful insert. -/
def createPayrollRows (existing : List PayrollRow) (row : PayrollRow) :
    Option (List PayrollRow) :=
  if duplicateMonthGuard existing row.payment_date then none
  else some (existing ++ [row])

/-! ## Leave requests (POST /api/leave-requests, lines 1158–1253, and
PUT /api/leave-requests/:id, lines 1256–1344) -/

/-- A stored `leave_requests` row of one employee, as the overlap query reads
it. -/
structure LeaveReq where
  start_date : JDate
  end_date : JDate
  status : String
deriving DecidableEq

/-- A `leave_quotas` row; `used_quota` is nullable. -/
structure LeaveQuota where
  id : Nat
  employee_id : String
  year : Int
  quota_type : String
  total_quota : Int
  used_quota : Option Int
deriving DecidableEq

/-- Inclusive day count of a request:
`Math.ceil((end - start) / 86400000) + 1` on midnight dates (lines 1224 and
1322). -/
def leaveDuration (s e : JDate) : Int := toDays e - toDays s + 1

/-- The overlap `findFirst` (lines 1205–1216): an existing PENDING or
APPROVED request of the employee with `start_date ≤ newEnd` and
`end_date ≥ newStart`. -/
def overlapExists (existing : List LeaveReq) (s e : JDate) : Bool :=
  existing.any (fun r =>
    (r.status == "PENDING" || r.status == "APPROVED") &&
      dateLE r.start_date e && dateLE s r.end_date)

/-- The annual-quota rejection (line 1225): a `tahunan` quota row was found,
its remaining quota is under the requested days, and the requested leave
type (lower-cased) is `tahunan`.  JS `total_quota - used_quota` reads a null
`used_quota` as 0. -/
def quotaBlocks (quota : Option LeaveQuota) (leave_type : String) (s e : JDate) : Bool :=
  match quota with
  | none => false
  | some q =>
      decide (q.total_quota - q.used_quota.getD 0 < leaveDuration s e) &&
        (leave_type.toLower == "tahunan")

/-- Outcome of the leave-request creation handler (the checks it runs in
order after the employee row is found). -/
inductive LeaveCreateResult where
  | invalidDateOrder
  | startBeforeToday
  | overlapRejected
  | quotaRejected
  | created
deriving DecidableEq

/-- The validation sequence of POST /api/leave-requests (lines 1185–1246):
date order, start not before today (WIB), the overlap check, the annual
quota check, then creation. -/
def createLeaveRequest (today : JDate) (existing : List LeaveReq)
    (quota : Option LeaveQuota) (leave_type : String) (s e : JDate) : LeaveCreateResult :=
  if ! dateLE s e then .invalidDateOrder
  else if dateLT s today then .startBeforeToday
  else if overlapExists existing s e then .overlapRejected
  else if quotaBlocks quota leave_type s e then .quotaRejected
  else .created

/-- The stored leave request a status update works on. -/
structure OldLeaveRequest where
  employee_id : String
  start_date : JDate
  end_date : JDate
  reason : String
  status : String
deriving DecidableEq

/-- The quota `findFirst` of the update handler (lines 1327–1329): employee,
year of the request's start date, quota_type `tahunan`. -/
def findQuota (quotas : List LeaveQuota) (old : OldLeaveRequest) : Option LeaveQuota :=
  quotas.find? (fun q =>
    q.employee_id == old.employee_id && q.year == old.start_date.year &&
      q.quota_type == "tahunan")

/-- The guard of line 1318: the update sets status APPROVED, the old status
was not APPROVED, and the stored reason is not "Sakit". -/
def approvalTransition (old : OldLeaveRequest) (newStatus : Option String) : Bool :=
  newStatus == some "APPROVED" && old.status != "APPROVED" && old.reason != "Sakit"

/-- The quota side effect of PUT /api/leave-requests/:id (lines 1317–1338):
on an approval transition, find the employee's `tahunan` quota row for the
start year and set its `used_quota` to `(used_quota || 0) + duration`;
otherwise the quota table is untouched. -/
def updateQuotasOnApproval (old : OldLeaveRequest) (newStatus : Option String)
    (quotas : List LeaveQuota) : List LeaveQuota :=
  if approvalTransition old newStatus then
    match findQuota quotas old with
    | some q =>
        let newUsed := q.used_quota.getD 0 + leaveDuration old.start_date old.end_date
        quotas.map (fun x => if x.id = q.id then { x with used_quota := some newUsed } else x)
    | none => quotas
  else quotas

/-! ## NIK generation and validation (lines 3364–3594) -/

/-- JS `String.prototype.includes` on character lists. -/
def listHasInfix (p : List Char) : List Char → Bool
  | [] => decide (p = [])
  | c :: rest => p.isPrefixOf (c :: rest) || listHasInfix p rest

/-- JS `String.prototype.replace` with a string pattern: replace the first
occurrence only; the string is unchanged when the pattern does not occur. -/
def listReplaceFirst (p rep : List Char) : List Char → List Char
  | [] => if p = [] then rep else []
  | c :: rest =>
      if p.isPrefixOf (c :: rest) then rep ++ (c :: rest).drop p.length
      else c :: listReplaceFirst p rep rest

/-- `s.includes(pat)`. -/
def containsSub (s pat : String) : Bool := listHasInfix pat.toList s.toList

/-- `s.replace(pat, rep)` (first occurrence). -/
def replaceFirst (s pat rep : String) : String :=
  String.mk (listReplaceFirst pat.toList rep.toList s.toList)

/-- JS `padStart(n, '0')`: left-pad with zeros up to length `n`; longer
strings are unchanged. -/
def padStart (s : String) (n : Nat) : String :=
  if n ≤ s.length then s else String.mk (List.replicate (n - s.length) '0' ++ s.toList)

/-- A `department_nik_config` row (the fields the generate/validate handlers
read).  `pfx` is the row's `prefix` column. -/
structure NikConfig where
  pfx : String
  current_sequence : Nat
  sequence_length : Nat
  format_pattern : Option String
deriving DecidableEq

/-- POST /api/department-nik-configs/:departmentName/generate-next
(lines 3391–3418): zero-pad the current sequence, format per
`format_pattern` (placeholder template / "PREFIX + SEQUENCE" sentinel /
default concatenation), and increment the stored sequence by 1.  Returns
(next_nik, new current_sequence). -/
def generateNextNik (cfg : NikConfig) : String × Nat :=
  let sequence := padStart (Nat.repr cfg.current_sequence) cfg.sequence_length
  let nextNIK :=
    match cfg.format_pattern with
    | some fp =>
        if containsSub fp "\x7bprefix\x7d" && containsSub fp "\x7bsequence\x7d" then
          replaceFirst (replaceFirst fp "\x7bprefix\x7d" cfg.pfx) "\x7bsequence\x7d" sequence
        else if fp == "PREFIX + SEQUENCE" then cfg.pfx ++ sequence
        else cfg.pfx ++ sequence
    | none => cfg.pfx ++ sequence
  (nextNIK, cfg.current_sequence + 1)

/-- The test of the regex `^<pfx>[0-9]{len}$` that the validate handler
builds for the sentinel and default branches (lines 3516–3517 and
3550–3551): the candidate is the prefix followed by exactly `len` digits.
(The handler interpolates the prefix into the regex unescaped; department
prefixes contain no regex metacharacters.) -/
def matchesPrefixDigits (p : String) (len : Nat) (nik : String) : Bool :=
  p.toList.isPrefixOf nik.toList &&
    decide ((nik.toList.drop p.toList.length).length = len) &&
    (nik.toList.drop p.toList.length).all Char.isDigit

/-- The hardcoded Operational dual test
`/^OPS[0-9]{3}$/.test(nik) || /^OPS19[0-9]{3}$/.test(nik)` (lines 3521,
3537, 3555). -/
def opsSpecialValid (nik : String) : Bool :=
  matchesPrefixDigits "OPS" 3 nik || matchesPrefixDigits "OPS19" 3 nik

/-- The literal `"[0-9]{len}"` text substituted for the sequence
placeholder. -/
def digitsClassLiteral (len : Nat) : String := "[0-9]\x7b" ++ Nat.repr len ++ "\x7d"

/-- The substituted pattern text of the placeholder and custom branches
(lines 3527–3529 and 3541–3543). -/
def substitutedPattern (fp p : String) (len : Nat) : String :=
  replaceFirst (replaceFirst fp "\x7bprefix\x7d" p) "\x7bsequence\x7d" (digitsClassLiteral len)

/-- The per-branch `expectedRegex.test(nik_input)` value of the validate
handler, without the Operational special cases.  In the placeholder and
custom branches the handler regex-escapes the whole substituted pattern
(including the `[0-9]{len}` it just inserted, line 3532/3545), so the test
is literal string equality with the substituted pattern. -/
def baselineMatch (cfg : NikConfig) (nik : String) : Bool :=
  match cfg.format_pattern with
  | some fp =>
      if fp == "PREFIX + SEQUENCE" then matchesPrefixDigits cfg.pfx cfg.sequence_length nik
      else if containsSub fp "\x7bprefix\x7d" && containsSub fp "\x7bsequence\x7d" then
        nik == substitutedPattern fp cfg.pfx cfg.sequence_length
      else nik == substitutedPattern fp cfg.pfx cfg.sequence_length
  | none => matchesPrefixDigits cfg.pfx cfg.sequence_length nik

/-- POST /api/department-nik-configs/validate-format (lines 3508–3559): the
`is_valid` flag for a department's active config and a candidate NIK.  For
department "Operational" the sentinel and no-pattern branches always use the
dual OPS/OPS19 test; the placeholder branch uses it only when the configured
prefix is "OPS19"; the custom branch has no special case. -/
def validateFormat (department_name : String) (cfg : NikConfig) (nik : String) : Bool :=
  match cfg.format_pattern with
  | some fp =>
      if fp == "PREFIX + SEQUENCE" then
        if department_name == "Operational" then opsSpecialValid nik
        else matchesPrefixDigits cfg.pfx cfg.sequence_length nik
      else if containsSub fp "\x7bprefix\x7d" && containsSub fp "\x7bsequence\x7d" then
        if department_name == "Operational" && cfg.pfx == "OPS19" then opsSpecialValid nik
        else nik == substitutedPattern fp cfg.pfx cfg.sequence_length
      else nik == substitutedPattern fp cfg.pfx cfg.sequence_length
  | none =>
      if department_name == "Operational" then opsSpecialValid nik
      else matchesPrefixDigits cfg.pfx cfg.sequence_length nik

/-! ## Helper lemmas about the date order -/

lemma dateLE_iff (a b : JDate) : dateLE a b = true ↔
    (a.year < b.year ∨ (a.year = b.year ∧
      (a.month < b.month ∨ (a.month = b.month ∧ a.day ≤ b.day)))) := by
  simp [dateLE]

lemma dateLE_refl (a : JDate) : dateLE a a = true := by
  simp [dateLE]

lemma dateLE_trans {a b c : JDate} (h1 : dateLE a b = true) (h2 : dateLE b c = true) :
    dateLE a c = true := by
  rw [dateLE_iff] at *
  omega

lemma dateLE_total (a b : JDate) : dateLE a b = true ∨ dateLE b a = true := by
  rw [dateLE_iff, dateLE_iff]
  omega

/-- A date lies between the first and the last day of another date's month
exactly when the two dates share calendar year and month. -/
lemma monthSpan_iff (d e : JDate) (hd : validDate d) :
    (dateLE (monthStart e) d && dateLE d (monthEnd e)) = true ↔ sameMonth d e := by
  obtain ⟨dy, dm, dd⟩ := d
  obtain ⟨ey, em, ed⟩ := e
  simp only [validDate] at hd
  obtain ⟨h1, h2, h3⟩ := hd
  simp only [dateLE, monthStart, monthEnd, sameMonth, Bool.and_eq_true, Bool.or_eq_true,
    decide_eq_true_eq]
  constructor
  · rintro ⟨ha, hb⟩
    exact ⟨by omega, by omega⟩
  · rintro ⟨hy, hm⟩
    subst hy
    subst hm
    omega

/-- Two inclusive, well-ordered date ranges have a common day exactly when
each range starts no later than the other ends. -/
lemma ranges_intersect_iff (s e a b : JDate) (hse : dateLE s e = true)
    (hab : dateLE a b = true) :
    (dateLE a e = true ∧ dateLE s b = true) ↔
      ∃ x, dateLE a x = true ∧ dateLE x b = true ∧ dateLE s x = true ∧ dateLE x e = true := by
  constructor
  · rintro ⟨h1, h2⟩
    rcases dateLE_total s a with h | h
    · exact ⟨a, dateLE_refl a, hab, h, h1⟩
    · exact ⟨s, h, h2, dateLE_refl s, hse⟩
  · rintro ⟨x, hx1, hx2, hx3, hx4⟩
    exact ⟨dateLE_trans hx1 hx4, dateLE_trans hx3 hx2⟩

/-! ## C6: duplicate monthly payroll -/

/-- Claim C6: creating a payroll whose `payment_date` falls in the same
calendar month and year as an existing payroll row of the employee is
rejected with Conflict (modelled `none`), regardless of the rows' amounts;
hence a successful create preserves at-most-one-row-per-calendar-month. -/
theorem c6_duplicate_month_conflict (existing : List PayrollRow) (row : PayrollRow)
    (hall : ∀ p ∈ existing, validDate p.payment_date) :
    (createPayrollRows existing row = none ↔
      ∃ p ∈ existing, sameMonth p.payment_date row.payment_date) ∧
    (∀ rows, createPayrollRows existing row = some rows →
      existing.Pairwise (fun a b => ¬ sameMonth a.payment_date b.payment_date) →
      rows.Pairwise (fun a b => ¬ sameMonth a.payment_date b.payment_date)) := by
  have hguard : duplicateMonthGuard existing row.payment_date = true ↔
      ∃ p ∈ existing, sameMonth p.payment_date row.payment_date := by
    unfold duplicateMonthGuard
    rw [List.any_eq_true]
    constructor
    · rintro ⟨p, hp, hcond⟩
      exact ⟨p, hp, (monthSpan_iff _ _ (hall p hp)).1 hcond⟩
    · rintro ⟨p, hp, hsm⟩
      exact ⟨p, hp, (monthSpan_iff _ _ (hall p hp)).2 hsm⟩
  constructor
  · unfold createPayrollRows
    by_cases hg : duplicateMonthGuard existing row.payment_date
    · simpa [hg] using hguard.1 hg
    · simp only [Bool.not_eq_true] at hg
      simp [hg]
      intro p hp hsm
      exact absurd (hguard.2 ⟨p, hp, hsm⟩) (by simp [hg])
  · intro rows hrows hpw
    unfold createPayrollRows at hrows
    by_cases hg : duplicateMonthGuard existing row.payment_date
    · simp [hg] at hrows
    · simp only [Bool.not_eq_true] at hg
      simp only [hg, Bool.false_eq_true, if_false, Option.some.injEq] at hrows
      subst hrows
      rw [List.pairwise_append]
      refine ⟨hpw, by simp, ?_⟩
      intro a ha b hb
      simp only [List.mem_singleton] at hb
      subst hb
      intro hsm
      exact absurd (hguard.2 ⟨a, ha, hsm⟩) (by simp [hg])

/-- Witness for C6 at a concrete input: an existing January 2024 payroll
with different amounts makes a second January 2024 payroll a conflict. -/
theorem c6_witness :
    (createPayrollRows [⟨⟨2024, 0, 15⟩, 10, 8⟩] ⟨⟨2024, 0, 20⟩, 999, 777⟩ = none ↔
      ∃ p ∈ [(⟨⟨2024, 0, 15⟩, 10, 8⟩ : PayrollRow)], sameMonth p.payment_date ⟨2024, 0, 20⟩) ∧
    (∀ rows, createPayrollRows [⟨⟨2024, 0, 15⟩, 10, 8⟩] ⟨⟨2024, 0, 20⟩, 999, 777⟩ = some rows →
      List.Pairwise (fun a b => ¬ sameMonth a.payment_date b.payment_date)
        [(⟨⟨2024, 0, 15⟩, 10, 8⟩ : PayrollRow)] →
      rows.Pairwise (fun a b => ¬ sameMonth a.payment_date b.payment_date)) :=
  c6_duplicate_month_conflict [⟨⟨2024, 0, 15⟩, 10, 8⟩] ⟨⟨2024, 0, 20⟩, 999, 777⟩ (by decide)

/-! ## C7: leave-request overlap rejection -/

/-- Claim C7: once the date-order, start-date and quota validations pass,
leave-request creation is rejected by the overlap check exactly when the
employee has an existing PENDING or APPROVED request whose inclusive
[start, end] range shares a day with the new request's range; otherwise the
request is created. -/
theorem c7_leave_overlap (today : JDate) (existing : List LeaveReq)
    (quota : Option LeaveQuota) (leave_type : String) (s e : JDate)
    (horder : dateLE s e = true) (htoday : dateLT s today = false)
    (hquota : quotaBlocks quota leave_type s e = false)
    (hranges : ∀ r ∈ existing, dateLE r.start_date r.end_date = true) :
    (createLeaveRequest today existing quota leave_type s e = .overlapRejected ↔
      ∃ r ∈ existing, (r.status = "PENDING" ∨ r.status = "APPROVED") ∧
        ∃ x, dateLE r.start_date x = true ∧ dateLE x r.end_date = true ∧
          dateLE s x = true ∧ dateLE x e = true) ∧
    (createLeaveRequest today existing quota leave_type s e = .created ↔
      ¬ ∃ r ∈ existing, (r.status = "PENDING" ∨ r.status = "APPROVED") ∧
        ∃ x, dateLE r.start_date x = true ∧ dateLE x r.end_date = true ∧
          dateLE s x = true ∧ dateLE x e = true) := by
  have hover : overlapExists existing s e = true ↔
      (∃ r ∈ existing, (r.status = "PENDING" ∨ r.status = "APPROVED") ∧
        ∃ x, dateLE r.start_date x = true ∧ dateLE x r.end_date = true ∧
          dateLE s x = true ∧ dateLE x e = true) := by
    unfold overlapExists
    rw [List.any_eq_true]
    constructor
    · rintro ⟨r, hr, hcond⟩
      simp only [Bool.and_eq_true, Bool.or_eq_true, beq_iff_eq] at hcond
      obtain ⟨⟨hst, hd1⟩, hd2⟩ := hcond
      exact ⟨r, hr, hst,
        (ranges_intersect_iff s e r.start_date r.end_date horder (hranges r hr)).1 ⟨hd1, hd2⟩⟩
    · rintro ⟨r, hr, hst, hx⟩
      refine ⟨r, hr, ?_⟩
      simp only [Bool.and_eq_true, Bool.or_eq_true, beq_iff_eq]
      obtain ⟨hd1, hd2⟩ :=
        (ranges_intersect_iff s e r.start_date r.end_date horder (hranges r hr)).2 hx
      exact ⟨⟨hst, hd1⟩, hd2⟩
  unfold createLeaveRequest
  simp only [horder, htoday, hquota, Bool.not_true, Bool.false_eq_true, if_false]
  by_cases ho : overlapExists existing s e
  · simp only [ho, if_true]
    refine ⟨⟨fun _ => hover.1 ho, fun _ => trivial⟩, ?_⟩
    constructor
    · intro h
      exact absurd h (by decide)
    · intro h
      exact absurd (hover.1 ho) h
  · simp only [Bool.not_eq_true] at ho
    simp only [ho, Bool.false_eq_true, if_false, hquota]
    refine ⟨?_, ?_⟩
    · constructor
      · intro h
        exact absurd h (by decide)
      · intro hex
        exact absurd (hover.2 hex) (by simp [ho])
    · exact ⟨fun _ hex => absurd (hover.2 hex) (by simp [ho]), fun _ => trivial⟩

/-- Witness for C7 at the spec's example: against an APPROVED request for
days 5–10 (May 2025), a request for days 8–12 is rejected by the overlap
check and a request for days 11–15 is created. -/
theorem c7_witness :
    createLeaveRequest ⟨2025, 4, 1⟩ [⟨⟨2025, 4, 5⟩, ⟨2025, 4, 10⟩, "APPROVED"⟩] none "tahunan"
      ⟨2025, 4, 8⟩ ⟨2025, 4, 12⟩ = .overlapRejected ∧
    createLeaveRequest ⟨2025, 4, 1⟩ [⟨⟨2025, 4, 5⟩, ⟨2025, 4, 10⟩, "APPROVED"⟩] none "tahunan"
      ⟨2025, 4, 11⟩ ⟨2025, 4, 15⟩ = .created := by
  constructor
  · exact (c7_leave_overlap ⟨2025, 4, 1⟩ [⟨⟨2025, 4, 5⟩, ⟨2025, 4, 10⟩, "APPROVED"⟩] none
      "tahunan" ⟨2025, 4, 8⟩ ⟨2025, 4, 12⟩ (by decide) (by decide) (by decide) (by decide)).1.2
      ⟨⟨⟨2025, 4, 5⟩, ⟨2025, 4, 10⟩, "APPROVED"⟩, by decide, Or.inr rfl,
        ⟨2025, 4, 8⟩, by decide, by decide, by decide, by decide⟩
  · apply (c7_leave_overlap ⟨2025, 4, 1⟩ [⟨⟨2025, 4, 5⟩, ⟨2025, 4, 10⟩, "APPROVED"⟩] none
      "tahunan" ⟨2025, 4, 11⟩ ⟨2025, 4, 15⟩ (by decide) (by decide) (by decide) (by decide)).2.2
    rintro ⟨r, hr, hst, x, hx1, hx2, hx3, hx4⟩
    simp only [List.mem_singleton] at hr
    subst hr
    exact absurd (dateLE_trans hx3 hx2) (by decide)

/-! ## C8: used_quota increment on approval -/

/-- `find?` by id after an id-preserving update of the unique row with that
id returns the updated row. -/
lemma find_map_update (l : List LeaveQuota) (q : LeaveQuota) (g : LeaveQuota → LeaveQuota)
    (hid : ∀ x, (g x).id = x.id) (hmem : q ∈ l)
    (huniq : l.Pairwise (fun a b => a.id ≠ b.id)) :
    (l.map (fun x => if x.id = q.id then g x else x)).find? (fun x => x.id == q.id) =
      some (g q) := by
  induction l with
  | nil => cases hmem
  | cons a t ih =>
      rw [List.pairwise_cons] at huniq
      obtain ⟨ha, ht⟩ := huniq
      rcases List.mem_cons.1 hmem with rfl | hq
      · simp only [List.map_cons]
        rw [List.find?_cons_of_pos]
        · simp
        · simp [hid]
      · have hne : a.id ≠ q.id := ha q hq
        simp only [List.map_cons, if_neg hne]
        rw [List.find?_cons_of_neg]
        · exact ih hq ht
        · simp [hne]

/-- Claim C8: a leave-request status update increments the matching `tahunan`
quota row's `used_quota` by the request's inclusive day count exactly when
the new status is APPROVED, the old status was not APPROVED, and the stored
reason is not "Sakit"; any other update leaves the quota table unchanged,
and rows with other ids survive the update untouched. -/
theorem c8_quota_increment (old : OldLeaveRequest) (newStatus : Option String)
    (quotas : List LeaveQuota) (q : LeaveQuota)
    (hq : findQuota quotas old = some q)
    (huniq : quotas.Pairwise (fun a b => a.id ≠ b.id)) :
    (approvalTransition old newStatus = true ↔
      (newStatus = some "APPROVED" ∧ old.status ≠ "APPROVED" ∧ old.reason ≠ "Sakit")) ∧
    (approvalTransition old newStatus = true →
      (updateQuotasOnApproval old newStatus quotas).find? (fun x => x.id == q.id) =
        some { q with
                used_quota :=
                  some (q.used_quota.getD 0 +
                    leaveDuration old.start_date old.end_date) } ∧
      ∀ x ∈ quotas, x.id ≠ q.id → x ∈ updateQuotasOnApproval old newStatus quotas) ∧
    (approvalTransition old newStatus = false →
      updateQuotasOnApproval old newStatus quotas = quotas) := by
  have hmem : q ∈ quotas := List.mem_of_find?_eq_some hq
  refine ⟨?_, ?_, ?_⟩
  · simp [approvalTransition, and_assoc]
  · intro ht
    unfold updateQuotasOnApproval
    rw [ht, hq]
    simp only [if_true]
    constructor
    · exact find_map_update quotas q _ (fun x => rfl) hmem huniq
    · intro x hx hne
      exact List.mem_map.2 ⟨x, hx, by simp [if_neg hne]⟩
  · intro hf
    unfold updateQuotasOnApproval
    simp [hf]

/-- Witness for C8 at a concrete input: approving a pending 5-day request
(May 8–12, reason "Cuti") adds 5 to the quota row's used_quota of 2. -/
theorem c8_witness :
    (approvalTransition ⟨"E1", ⟨2025, 4, 8⟩, ⟨2025, 4, 12⟩, "Cuti", "PENDING"⟩
        (some "APPROVED") = true ↔
      (some "APPROVED" = some "APPROVED" ∧ "PENDING" ≠ "APPROVED" ∧ "Cuti" ≠ "Sakit")) ∧
    (approvalTransition ⟨"E1", ⟨2025, 4, 8⟩, ⟨2025, 4, 12⟩, "Cuti", "PENDING"⟩
        (some "APPROVED") = true →
      (updateQuotasOnApproval ⟨"E1", ⟨2025, 4, 8⟩, ⟨2025, 4, 12⟩, "Cuti", "PENDING"⟩
          (some "APPROVED") [⟨1, "E1", 2025, "tahunan", 12, some 2⟩]).find?
          (fun x => x.id == 1) =
        some { (⟨1, "E1", 2025, "tahunan", 12, some 2⟩ : LeaveQuota) with
                used_quota := some ((2 : Int) + leaveDuration ⟨2025, 4, 8⟩ ⟨2025, 4, 12⟩) } ∧
      ∀ x ∈ [(⟨1, "E1", 2025, "tahunan", 12, some 2⟩ : LeaveQuota)], x.id ≠ 1 →
        x ∈ updateQuotasOnApproval ⟨"E1", ⟨2025, 4, 8⟩, ⟨2025, 4, 12⟩, "Cuti", "PENDING"⟩
          (some "APPROVED") [⟨1, "E1", 2025, "tahunan", 12, some 2⟩]) ∧
    (approvalTransition ⟨"E1", ⟨2025, 4, 8⟩, ⟨2025, 4, 12⟩, "Cuti", "PENDING"⟩
        (some "APPROVED") = false →
      updateQuotasOnApproval ⟨"E1", ⟨2025, 4, 8⟩, ⟨2025, 4, 12⟩, "Cuti", "PENDING"⟩
        (some "APPROVED") [⟨1, "E1", 2025, "tahunan", 12, some 2⟩] =
        [⟨1, "E1", 2025, "tahunan", 12, some 2⟩]) :=
  c8_quota_increment ⟨"E1", ⟨2025, 4, 8⟩, ⟨2025, 4, 12⟩, "Cuti", "PENDING"⟩ (some "APPROVED")
    [⟨1, "E1", 2025, "tahunan", 12, some 2⟩] ⟨1, "E1", 2025, "tahunan", 12, some 2⟩
    (by decide) (by simp)

/-! ## C1/C2/C5/C10: the payroll calculator -/

/-- The component loop unrolled: entries are mapped in order, and the two
accumulators collect the amounts of the income / deduction components. -/
lemma calcComponents_go (base : ℚ) (comps : List PayComponent) (acc : List CalcEntry × ℚ × ℚ) :
    comps.foldl (calcStep base) acc =
      (acc.1 ++ comps.map (mkEntry base),
        acc.2.1 + ((comps.filter (fun c => c.ctype = "income")).map
          (fun c => componentAmount base c)).sum,
        acc.2.2 + ((comps.filter (fun c => c.ctype = "deduction")).map
          (fun c => componentAmount base c)).sum) := by
  induction comps generalizing acc with
  | nil => simp
  | cons c t ih =>
      rw [List.foldl_cons, ih]
      unfold calcStep
      by_cases h1 : c.ctype = "income"
      · have h2 : ¬ c.ctype = "deduction" := by simp [h1]
        simp [h1, h2, List.filter_cons, Prod.ext_iff, add_assoc]
      · by_cases h2 : c.ctype = "deduction"
        · simp [h1, h2, List.filter_cons, Prod.ext_iff, add_assoc]
        · simp [h1, h2, List.filter_cons, Prod.ext_iff]

lemma calcComponents_fst (base : ℚ) (comps : List PayComponent) :
    (calcComponents base comps).1 = comps.map (mkEntry base) := by
  rw [calcComponents, calcComponents_go]
  simp

lemma calcComponents_income (base : ℚ) (comps : List PayComponent) :
    (calcComponents base comps).2.1 =
      ((comps.filter (fun c => c.ctype = "income")).map (fun c => componentAmount base c)).sum := by
  rw [calcComponents, calcComponents_go]
  exact zero_add _

lemma calcComponents_deduction (base : ℚ) (comps : List PayComponent) :
    (calcComponents base comps).2.2 =
      ((comps.filter (fun c => c.ctype = "deduction")).map
        (fun c => componentAmount base c)).sum := by
  rw [calcComponents, calcComponents_go]
  exact zero_add _

/-- Claim C1: every response of the calculator lists, per active component,
the contribution `percentage > 0 ⇒ pure_basic_salary × percentage / 100,
else positive flat amount, else 0`, computed from the stored salary row's
basic pay, and `total_income` / `total_auto_deduction` are the sums of the
contributions of the income / deduction components. -/
theorem c1_calculator_amounts (salaryData : Salary) (components : List PayComponent)
    (md : Option ManualDeductions) (b : Option ℚ) (r : CalcResponse)
    (hr : calcPayroll salaryData components md b = some r) :
    r.calculated_components =
      (components.filter (fun c => c.is_active)).map
        (mkEntry (numOr0 salaryData.basic_salary)) ∧
    (∀ c : PayComponent, mkEntry (numOr0 salaryData.basic_salary) c =
      ⟨c.name, c.ctype,
        (if 0 < numOr0 c.percentage then
          numOr0 salaryData.basic_salary * numOr0 c.percentage / 100
         else if 0 < numOr0 c.amount then numOr0 c.amount else 0),
        numOr0 c.percentage, decide (0 < numOr0 c.percentage), c.category⟩) ∧
    r.totals.total_income =
      (((components.filter (fun c => c.is_active)).filter (fun c => c.ctype = "income")).map
        (fun c => componentAmount (numOr0 salaryData.basic_salary) c)).sum ∧
    r.totals.total_auto_deduction =
      (((components.filter (fun c => c.is_active)).filter (fun c => c.ctype = "deduction")).map
        (fun c => componentAmount (numOr0 salaryData.basic_salary) c)).sum := by
  unfold calcPayroll at hr
  by_cases hb : truthyNum b
  · simp only [hb, if_true, Option.some.injEq] at hr
    subst hr
    exact ⟨calcComponents_fst _ _, fun c => rfl, calcComponents_income _ _,
      calcComponents_deduction _ _⟩
  · simp [hb] at hr

/-- Witness for C1 at a concrete input: one active 4%-of-salary income
component against a stored basic salary of 1,000,000. -/
theorem c1_witness :
    (calcCore ⟨some 1000000, none, none, none, none, none⟩
        [⟨"BPJS JHT (Perusahaan)", "income", "bpjs", some 4, none, true⟩] none
        (numOr0 (some 1000000))).calculated_components =
      (([⟨"BPJS JHT (Perusahaan)", "income", "bpjs", some 4, none, true⟩] :
          List PayComponent).filter (fun c => c.is_active)).map
        (mkEntry (numOr0 (some 1000000))) ∧
    (∀ c : PayComponent, mkEntry (numOr0 (some 1000000)) c =
      ⟨c.name, c.ctype,
        (if 0 < numOr0 c.percentage then numOr0 (some 1000000) * numOr0 c.percentage / 100
         else if 0 < numOr0 c.amount then numOr0 c.amount else 0),
        numOr0 c.percentage, decide (0 < numOr0 c.percentage), c.category⟩) ∧
    (calcCore ⟨some 1000000, none, none, none, none, none⟩
        [⟨"BPJS JHT (Perusahaan)", "income", "bpjs", some 4, none, true⟩] none
        (numOr0 (some 1000000))).totals.total_income =
      (((([⟨"BPJS JHT (Perusahaan)", "income", "bpjs", some 4, none, true⟩] :
          List PayComponent).filter (fun c => c.is_active)).filter
            (fun c => c.ctype = "income")).map
        (fun c => componentAmount (numOr0 (some 1000000)) c)).sum ∧
    (calcCore ⟨some 1000000, none, none, none, none, none⟩
        [⟨"BPJS JHT (Perusahaan)", "income", "bpjs", some 4, none, true⟩] none
        (numOr0 (some 1000000))).totals.total_auto_deduction =
      (((([⟨"BPJS JHT (Perusahaan)", "income", "bpjs", some 4, none, true⟩] :
          List PayComponent).filter (fun c => c.is_active)).filter
            (fun c => c.ctype = "deduction")).map
        (fun c => componentAmount (numOr0 (some 1000000)) c)).sum :=
  c1_calculator_amounts ⟨some 1000000, none, none, none, none, none⟩
    [⟨"BPJS JHT (Perusahaan)", "income", "bpjs", some 4, none, true⟩] none (some 1000000)
    (calcCore ⟨some 1000000, none, none, none, none, none⟩
      [⟨"BPJS JHT (Perusahaan)", "income", "bpjs", some 4, none, true⟩] none
      (numOr0 (some 1000000))) rfl

/-- Claim C2: in every calculator breakdown, `pendapatan_tetap` is the pure
basic salary plus `total_income`, `pendapatan_tidak_tetap` is the sum of the
five stored allowances (null read as 0), `total_pendapatan` is their sum,
and — whenever the manual-deduction sum is an actual number, in particular
for absent or fully-given `manual_deductions` — `total_deduction` is
`total_auto_deduction + total_manual_deduction` and
`net_salary = total_pendapatan - total_deduction` exactly. -/
theorem c2_breakdown_identities (salaryData : Salary) (components : List PayComponent)
    (md : Option ManualDeductions) (b : Option ℚ) (r : CalcResponse)
    (hr : calcPayroll salaryData components md b = some r)
    (hmd : mdComplete md = true) :
    r.totals.pendapatan_tetap = r.pure_basic_salary + r.totals.total_income ∧
    r.totals.pendapatan_tidak_tetap =
      numOr0 salaryData.position_allowance + numOr0 salaryData.management_allowance +
        numOr0 salaryData.phone_allowance + numOr0 salaryData.incentive_allowance +
        numOr0 salaryData.overtime_allowance ∧
    r.totals.total_pendapatan =
      r.totals.pendapatan_tetap + r.totals.pendapatan_tidak_tetap ∧
    ∃ m : ℚ, r.totals.total_manual_deduction = some m ∧
      r.totals.total_deduction = some (r.totals.total_auto_deduction + m) ∧
      r.totals.net_salary =
        some (r.totals.total_pendapatan - (r.totals.total_auto_deduction + m)) := by
  unfold calcPayroll at hr
  by_cases hb : truthyNum b
  · simp only [hb, if_true, Option.some.injEq] at hr
    subst hr
    refine ⟨rfl, rfl, rfl, ?_⟩
    match md, hmd with
    | none, _ =>
        exact ⟨0 + 0 + 0, rfl, rfl, rfl⟩
    | some ⟨some k, some t, some a⟩, _ =>
        exact ⟨k + t + a, rfl, rfl, rfl⟩
  · simp [hb] at hr

/-- Witness for C2 at a concrete input: stored salary 2,000,000 with one
allowance, no components, manual deductions fully given. -/
theorem c2_witness :
    (calcCore ⟨some 2000000, some 50000, none, none, none, none⟩ []
        (some ⟨some 10000, some 0, some 5000⟩) (numOr0 (some 2000000))).totals.pendapatan_tetap =
      (calcCore ⟨some 2000000, some 50000, none, none, none, none⟩ []
        (some ⟨some 10000, some 0, some 5000⟩)
          (numOr0 (some 2000000))).pure_basic_salary +
      (calcCore ⟨some 2000000, some 50000, none, none, none, none⟩ []
        (some ⟨some 10000, some 0, some 5000⟩)
          (numOr0 (some 2000000))).totals.total_income ∧
    (calcCore ⟨some 2000000, some 50000, none, none, none, none⟩ []
        (some ⟨some 10000, some 0, some 5000⟩)
          (numOr0 (some 2000000))).totals.pendapatan_tidak_tetap =
      numOr0 (some 50000) + numOr0 none + numOr0 none + numOr0 none + numOr0 none ∧
    (calcCore ⟨some 2000000, some 50000, none, none, none, none⟩ []
        (some ⟨some 10000, some 0, some 5000⟩)
          (numOr0 (some 2000000))).totals.total_pendapatan =
      (calcCore ⟨some 2000000, some 50000, none, none, none, none⟩ []
        (some ⟨some 10000, some 0, some 5000⟩)
          (numOr0 (some 2000000))).totals.pendapatan_tetap +
      (calcCore ⟨some 2000000, some 50000, none, none, none, none⟩ []
        (some ⟨some 10000, some 0, some 5000⟩)
          (numOr0 (some 2000000))).totals.pendapatan_tidak_tetap ∧
    ∃ m : ℚ,
      (calcCore ⟨some 2000000, some 50000, none, none, none, none⟩ []
        (some ⟨some 10000, some 0, some 5000⟩)
          (numOr0 (some 2000000))).totals.total_manual_deduction = some m ∧
      (calcCore ⟨some 2000000, some 50000, none, none, none, none⟩ []
        (some ⟨some 10000, some 0, some 5000⟩)
          (numOr0 (some 2000000))).totals.total_deduction =
        some ((calcCore ⟨some 2000000, some 50000, none, none, none, none⟩ []
          (some ⟨some 10000, some 0, some 5000⟩)
            (numOr0 (some 2000000))).totals.total_auto_deduction + m) ∧
      (calcCore ⟨some 2000000, some 50000, none, none, none, none⟩ []
        (some ⟨some 10000, some 0, some 5000⟩)
          (numOr0 (some 2000000))).totals.net_salary =
        some ((calcCore ⟨some 2000000, some 50000, none, none, none, none⟩ []
          (some ⟨some 10000, some 0, some 5000⟩)
            (numOr0 (some 2000000))).totals.total_pendapatan -
          ((calcCore ⟨some 2000000, some 50000, none, none, none, none⟩ []
            (some ⟨some 10000, some 0, some 5000⟩)
              (numOr0 (some 2000000))).totals.total_auto_deduction + m)) :=
  c2_breakdown_identities ⟨some 2000000, some 50000, none, none, none, none⟩ []
    (some ⟨some 10000, some 0, some 5000⟩) (some 2000000)
    (calcCore ⟨some 2000000, some 50000, none, none, none, none⟩ []
      (some ⟨some 10000, some 0, some 5000⟩) (numOr0 (some 2000000))) rfl (by decide)

/-- Claim C5 (code bug): a `manual_deductions` record that is present but
misses fields makes the calculator's manual-deduction sum NaN (`none`),
which propagates into `total_deduction` and `net_salary`, instead of
treating the absent fields as 0. -/
theorem c5_manual_deduction_nan :
    calcPayroll ⟨some 5000000, none, none, none, none, none⟩ []
        (some ⟨some 200000, none, none⟩) (some 5000000) =
      some (calcCore ⟨some 5000000, none, none, none, none, none⟩ []
        (some ⟨some 200000, none, none⟩) (numOr0 (some 5000000))) ∧
    (calcCore ⟨some 5000000, none, none, none, none, none⟩ []
      (some ⟨some 200000, none, none⟩)
        (numOr0 (some 5000000))).totals.total_manual_deduction = none ∧
    (calcCore ⟨some 5000000, none, none, none, none, none⟩ []
      (some ⟨some 200000, none, none⟩)
        (numOr0 (some 5000000))).totals.total_deduction = none ∧
    (calcCore ⟨some 5000000, none, none, none, none, none⟩ []
      (some ⟨some 200000, none, none⟩)
        (numOr0 (some 5000000))).totals.net_salary = none :=
  ⟨rfl, rfl, rfl, rfl⟩

/-- Claim C10 (non-interference): the caller-supplied `basic_salary` does
not influence any computed value of the calculator — all per-component
amounts and all totals agree between any two basic-salary inputs; the input
is only echoed as `totals.basic_salary` and gates the request, which is
rejected when it is absent or 0. -/
theorem c10_basic_salary_noninterference (salaryData : Salary)
    (components : List PayComponent) (md : Option ManualDeductions) (b1 b2 : ℚ) :
    (calcCore salaryData components md b1).calculated_components =
      (calcCore salaryData components md b2).calculated_components ∧
    (calcCore salaryData components md b1).pure_basic_salary =
      (calcCore salaryData components md b2).pure_basic_salary ∧
    (calcCore salaryData components md b1).totals.total_income =
      (calcCore salaryData components md b2).totals.total_income ∧
    (calcCore salaryData components md b1).totals.total_auto_deduction =
      (calcCore salaryData components md b2).totals.total_auto_deduction ∧
    (calcCore salaryData components md b1).totals.total_manual_deduction =
      (calcCore salaryData components md b2).totals.total_manual_deduction ∧
    (calcCore salaryData components md b1).totals.total_deduction =
      (calcCore salaryData components md b2).totals.total_deduction ∧
    (calcCore salaryData components md b1).totals.net_salary =
      (calcCore salaryData components md b2).totals.net_salary ∧
    (calcCore salaryData components md b1).totals.pendapatan_tetap =
      (calcCore salaryData components md b2).totals.pendapatan_tetap ∧
    (calcCore salaryData components md b1).totals.pendapatan_tidak_tetap =
      (calcCore salaryData components md b2).totals.pendapatan_tidak_tetap ∧
    (calcCore salaryData components md b1).totals.total_pendapatan =
      (calcCore salaryData components md b2).totals.total_pendapatan ∧
    (calcCore salaryData components md b1).totals.basic_salary = b1 ∧
    (calcCore salaryData components md b2).totals.basic_salary = b2 ∧
    (∀ b : Option ℚ, truthyNum b = true →
      calcPayroll salaryData components md b =
        some (calcCore salaryData components md (numOr0 b))) ∧
    (∀ b : Option ℚ, truthyNum b = false →
      calcPayroll salaryData components md b = none) ∧
    truthyNum none = false ∧
    (∀ v : ℚ, truthyNum (some v) = true ↔ v ≠ 0) := by
  refine ⟨rfl, rfl, rfl, rfl, rfl, rfl, rfl, rfl, rfl, rfl, rfl, rfl, ?_, ?_, rfl, ?_⟩
  · intro b hb
    simp [calcPayroll, hb]
  · intro b hb
    simp [calcPayroll, hb]
  · intro v
    simp [truthyNum]

/-! ## C4: creation-time fallback vs. calculator rule -/

/-- Claim C4 (refinement): the creation handler's fallback recomputation
uses the calculator's per-component rule — when the named component is
found, `getComponentAmount` equals `componentAmount` at the same basic
salary — every BPJS sub-amount arriving zero or absent is resolved to its
fallback, and the two subtotals are the sums of the resolved sub-amounts. -/
theorem c4_creation_fallback_consistency :
    (∀ (active : List PayComponent) (nm ty : String) (basic : ℚ) (c : PayComponent),
      active.find? (fun x => x.name == nm && x.ctype == ty) = some c →
      getComponentAmount active nm ty basic = componentAmount basic c) ∧
    (∀ (active : List PayComponent) (basic : ℚ) (body : CreateBody),
      (numOr0 body.bpjs_health_company = 0 →
        (resolveBpjs active basic body).bpjs_health_company =
          getComponentAmount active "BPJS Kesehatan (Perusahaan)" "income" basic) ∧
      (numOr0 body.jht_company = 0 →
        (resolveBpjs active basic body).jht_company =
          getComponentAmount active "BPJS Ketenagakerjaan JHT (Perusahaan)" "income" basic) ∧
      (numOr0 body.jkk_company = 0 →
        (resolveBpjs active basic body).jkk_company =
          getComponentAmount active "BPJS Ketenagakerjaan JKK (Perusahaan)" "income" basic) ∧
      (numOr0 body.jkm_company = 0 →
        (resolveBpjs active basic body).jkm_company =
          getComponentAmount active "BPJS Ketenagakerjaan JKM (Perusahaan)" "income" basic) ∧
      (numOr0 body.jp_company = 0 →
        (resolveBpjs active basic body).jp_company =
          getComponentAmount active "BPJS Jaminan Pensiun (Perusahaan)" "income" basic) ∧
      (numOr0 body.bpjs_health_employee = 0 →
        (resolveBpjs active basic body).bpjs_health_employee =
          getComponentAmount active "BPJS Kesehatan (Karyawan)" "deduction" basic) ∧
      (numOr0 body.jht_employee = 0 →
        (resolveBpjs active basic body).jht_employee =
          getComponentAmount active "BPJS Ketenagakerjaan JHT (Karyawan)" "deduction" basic) ∧
      (numOr0 body.jp_employee = 0 →
        (resolveBpjs active basic body).jp_employee =
          getComponentAmount active "BPJS Jaminan Pensiun (Karyawan)" "deduction" basic) ∧
      (resolveBpjs active basic body).subtotal_company_calc =
        (resolveBpjs active basic body).bpjs_health_company +
          (resolveBpjs active basic body).jht_company +
          (resolveBpjs active basic body).jkk_company +
          (resolveBpjs active basic body).jkm_company +
          (resolveBpjs active basic body).jp_company ∧
      (resolveBpjs active basic body).subtotal_employee_calc =
        (resolveBpjs active basic body).bpjs_health_employee +
          (resolveBpjs active basic body).jht_employee +
          (resolveBpjs active basic body).jp_employee) := by
  constructor
  · intro active nm ty basic c h
    unfold getComponentAmount componentAmount
    rw [h]
  · intro active basic body
    refine ⟨?_, ?_, ?_, ?_, ?_, ?_, ?_, ?_, rfl, rfl⟩ <;>
      · intro h
        simp [resolveBpjs, resolveBpjsField, h]

/-! ## C3: NIK generation -/

/-- Claim C3: generating the next NIK zero-pads `current_sequence` to
`sequence_length` digits, substitutes both placeholders when
`format_pattern` has them, concatenates prefix and padded sequence for the
"PREFIX + SEQUENCE" sentinel or any other/absent pattern, and increments
`current_sequence` by exactly 1; a config (OPS, length 3, sequence 7)
yields "OPS007" and new sequence 8. -/
theorem c3_generate_next_nik :
    (∀ cfg : NikConfig, (generateNextNik cfg).2 = cfg.current_sequence + 1) ∧
    (∀ (cfg : NikConfig) (fp : String), cfg.format_pattern = some fp →
      containsSub fp "\x7bprefix\x7d" = true → containsSub fp "\x7bsequence\x7d" = true →
      (generateNextNik cfg).1 =
        replaceFirst (replaceFirst fp "\x7bprefix\x7d" cfg.pfx) "\x7bsequence\x7d"
          (padStart (Nat.repr cfg.current_sequence) cfg.sequence_length)) ∧
    (∀ (cfg : NikConfig) (fp : String), cfg.format_pattern = some fp →
      (containsSub fp "\x7bprefix\x7d" && containsSub fp "\x7bsequence\x7d") = false →
      (generateNextNik cfg).1 =
        cfg.pfx ++ padStart (Nat.repr cfg.current_sequence) cfg.sequence_length) ∧
    (∀ cfg : NikConfig, cfg.format_pattern = none →
      (generateNextNik cfg).1 =
        cfg.pfx ++ padStart (Nat.repr cfg.current_sequence) cfg.sequence_length) ∧
    generateNextNik ⟨"OPS", 7, 3, none⟩ = ("OPS007", 8) := by
  refine ⟨fun cfg => rfl, ?_, ?_, ?_, by decide⟩
  · intro cfg fp hfp h1 h2
    unfold generateNextNik
    rw [hfp]
    simp [h1, h2]
  · intro cfg fp hfp h12
    unfold generateNextNik
    rw [hfp]
    simp [h12]
  · intro cfg hfp
    unfold generateNextNik
    rw [hfp]

/-! ## C9: NIK format validation for Operational -/

/-- In the placeholder branch with department Operational and prefix OPS19,
the handler overrides the literal test with the dual OPS/OPS19 test. -/
lemma validateFormat_placeholder_ops (len cur : Nat) (fp nik : String)
    (h1 : containsSub fp "\x7bprefix\x7d" = true)
    (h2 : containsSub fp "\x7bsequence\x7d" = true) :
    validateFormat "Operational" ⟨"OPS19", cur, len, some fp⟩ nik = opsSpecialValid nik := by
  have hfp : fp ≠ "PREFIX + SEQUENCE" := by
    rintro rfl
    exact absurd h1 (by decide)
  have hb : (fp == "PREFIX + SEQUENCE") = false := beq_eq_false_iff_ne.mpr hfp
  simp [validateFormat, hb, h1, h2]

/-- Claim C9 as amended: for department "Operational" with prefix "OPS19",
validation accepts "OPS003" and "OPS19003" and rejects "OPS3" and "ABC003"
whenever the active config's `format_pattern` is absent, is the
"PREFIX + SEQUENCE" sentinel, or contains both placeholders; for a custom
pattern without both placeholders the dual acceptance does not apply (see
the counterexample); and for every other department the result is exactly
the pattern test re-derived from that department's config. -/
theorem c9_validate_format_amended :
    (∀ (len cur : Nat),
      validateFormat "Operational" ⟨"OPS19", cur, len, none⟩ "OPS003" = true ∧
      validateFormat "Operational" ⟨"OPS19", cur, len, none⟩ "OPS19003" = true ∧
      validateFormat "Operational" ⟨"OPS19", cur, len, none⟩ "OPS3" = false ∧
      validateFormat "Operational" ⟨"OPS19", cur, len, none⟩ "ABC003" = false) ∧
    (∀ (len cur : Nat),
      validateFormat "Operational" ⟨"OPS19", cur, len, some "PREFIX + SEQUENCE"⟩
        "OPS003" = true ∧
      validateFormat "Operational" ⟨"OPS19", cur, len, some "PREFIX + SEQUENCE"⟩
        "OPS19003" = true ∧
      validateFormat "Operational" ⟨"OPS19", cur, len, some "PREFIX + SEQUENCE"⟩
        "OPS3" = false ∧
      validateFormat "Operational" ⟨"OPS19", cur, len, some "PREFIX + SEQUENCE"⟩
        "ABC003" = false) ∧
    (∀ (len cur : Nat) (fp : String),
      containsSub fp "\x7bprefix\x7d" = true → containsSub fp "\x7bsequence\x7d" = true →
      validateFormat "Operational" ⟨"OPS19", cur, len, some fp⟩ "OPS003" = true ∧
      validateFormat "Operational" ⟨"OPS19", cur, len, some fp⟩ "OPS19003" = true ∧
      validateFormat "Operational" ⟨"OPS19", cur, len, some fp⟩ "OPS3" = false ∧
      validateFormat "Operational" ⟨"OPS19", cur, len, some fp⟩ "ABC003" = false) ∧
    (∀ (dep : String) (cfg : NikConfig) (nik : String), dep ≠ "Operational" →
      validateFormat dep cfg nik = baselineMatch cfg nik) := by
  refine ⟨?_, ?_, ?_, ?_⟩
  · intro len cur
    exact ⟨(by decide : opsSpecialValid "OPS003" = true),
      (by decide : opsSpecialValid "OPS19003" = true),
      (by decide : opsSpecialValid "OPS3" = false),
      (by decide : opsSpecialValid "ABC003" = false)⟩
  · intro len cur
    exact ⟨(by decide : opsSpecialValid "OPS003" = true),
      (by decide : opsSpecialValid "OPS19003" = true),
      (by decide : opsSpecialValid "OPS3" = false),
      (by decide : opsSpecialValid "ABC003" = false)⟩
  · intro len cur fp h1 h2
    rw [validateFormat_placeholder_ops len cur fp _ h1 h2,
      validateFormat_placeholder_ops len cur fp _ h1 h2,
      validateFormat_placeholder_ops len cur fp _ h1 h2,
      validateFormat_placeholder_ops len cur fp _ h1 h2]
    exact ⟨by decide, by decide, by decide, by decide⟩

  · intro dep cfg nik hdep
    have hb : (dep == "Operational") = false := beq_eq_false_iff_ne.mpr hdep
    obtain ⟨pfx, cur, len, fp⟩ := cfg
    cases fp with
    | none => simp [validateFormat, baselineMatch, hb]
    | some s =>
        simp only [validateFormat, baselineMatch, hb, Bool.false_and, Bool.false_eq_true,
          if_false]

/-- Counterexample to C9 as stated: with a custom `format_pattern` (no
placeholders, not the sentinel) the Operational/OPS19 config rejects
"OPS003", because the custom branch has no dual-prefix special case. -/
theorem c9_counterexample :
    validateFormat "Operational" ⟨"OPS19", 1, 3, some "CUSTOM"⟩ "OPS003" = false := by
  decide
